import Mathlib

/-!
Verification of the recursive-multiplication routine of
`working-with-webpack` (`src/math/multiply.js`), against its
natural-language specification.

The routine under study is

  const multiply = (a, b, base = a) => {
    if (b <= 1) return a;
    return multiply(add(a, base), subtract(b, 1), base);
  };

All claims concern integer inputs; we embed the numeric values as `Int`.
-/

namespace WebpackMath

/-- Modelled from the spec: `src/math/add.js` is required by `multiply.js`
but is absent from the provided sources.  Spec §4.1 (Adder): "given two
numeric operands, returns their arithmetic sum. No side effects." -/
def add (x y : Int) : Int := x + y

/-- Modelled from the spec: `src/math/subtract.js` is required by
`multiply.js` but is absent from the provided sources.  Spec §4.2
(Subtractor): "given two numeric operands `x` and `y`, returns `x - y`." -/
def subtract (x y : Int) : Int := x - y

/-- Embedding of `multiply` from `src/math/multiply.js`, with the default
parameter made explicit: `multiply a b base` is the three-argument call.
`if (b <= 1) return a; return multiply(add(a, base), subtract(b, 1), base);` -/
def multiply (a b base : Int) : Int :=
  if b ≤ 1 then a
  else multiply (add a base) (subtract b 1) base
termination_by b.toNat
decreasing_by
  simp only [subtract]
  omega

/-- The two-argument call `multiply(a, b)`: the JS default parameter
`base = a` binds `base` to the initial value of `a`. -/
def multiplyDefault (a b : Int) : Int := multiply a b a

/-- Fuel-indexed evaluator for the same recursion: `none` means the
evaluation did not finish within `fuel` call frames.  Used to settle
termination claims. -/
def multiplyFuel : Nat → Int → Int → Int → Option Int
  | 0, _, _, _ => none
  | fuel + 1, a, b, base =>
      if b ≤ 1 then some a
      else multiplyFuel fuel (add a base) (subtract b 1) base

/-- Instrumented evaluation: returns the result together with the number
of calls to `add` and the number of calls to `subtract` performed (one
of each per recursive step). -/
def multiplyCost (a b base : Int) : Int × Nat × Nat :=
  if b ≤ 1 then (a, 0, 0)
  else
    let r := multiplyCost (add a base) (subtract b 1) base
    (r.1, r.2.1 + 1, r.2.2 + 1)
termination_by b.toNat
decreasing_by
  simp only [subtract]
  omega

/-- The list of argument triples `(a, b, base)` of every invocation of
`multiply` in the call chain started by `multiply a b base` (the first
element is the initial call). -/
def callTrace (a b base : Int) : List (Int × Int × Int) :=
  if b ≤ 1 then [(a, b, base)]
  else (a, b, base) :: callTrace (add a base) (subtract b 1) base
termination_by b.toNat
decreasing_by
  simp only [subtract]
  omega

/-- When the count is already at most 1, `multiply` returns `a` at once. -/
lemma multiply_of_le_one (a b base : Int) (hb : b ≤ 1) : multiply a b base = a := by
  rw [multiply, if_pos hb]

/-- One unfolding of the recursive branch. -/
lemma multiply_of_two_le (a b base : Int) (hb : 2 ≤ b) :
    multiply a b base = multiply (add a base) (subtract b 1) base := by
  rw [multiply, if_neg (by omega)]

/-- Closed form on successor counts: `multiply a (n+1) base = a + n * base`. -/
lemma multiply_succ_nat :
    ∀ (n : Nat) (a base : Int), multiply a ((n : Int) + 1) base = a + (n : Int) * base := by
  intro n
  induction n with
  | zero =>
      intro a base
      rw [multiply_of_le_one a _ base (by norm_num)]
      norm_num
  | succ k ih =>
      intro a base
      rw [multiply_of_two_le a _ base (by push_cast; omega)]
      have hsub : subtract ((k : Int) + 1 + 1) 1 = (k : Int) + 1 := by
        simp [subtract]
      push_cast
      rw [show ((k : Int) + 1 + 1) = ((k : Int) + 1) + 1 by ring] at hsub ⊢
      rw [hsub, ih]
      simp [add]
      ring

/-- Closed form: for count at least 1, `multiply a b base = a + (b-1) * base`. -/
lemma multiply_closed (a b base : Int) (hb : 1 ≤ b) :
    multiply a b base = a + (b - 1) * base := by
  obtain ⟨n, hn⟩ : ∃ n : Nat, b = (n : Int) + 1 := ⟨(b - 1).toNat, by omega⟩
  subst hn
  rw [multiply_succ_nat]
  ring

/-- With the default `base = a`, a count of at least 1 yields the product. -/
lemma multiplyDefault_closed (a b : Int) (hb : 1 ≤ b) :
    multiplyDefault a b = a * b := by
  rw [multiplyDefault, multiply_closed a b a hb]
  ring

/-- `b.toNat + 1` call frames of fuel always suffice, and the fuel-indexed
evaluator agrees with the total function. -/
lemma multiplyFuel_complete :
    ∀ (n : Nat) (a b base : Int), b.toNat ≤ n →
      multiplyFuel (n + 1) a b base = some (multiply a b base) := by
  intro n
  induction n with
  | zero =>
      intro a b base hb
      have h1 : b ≤ 1 := by omega
      rw [multiply_of_le_one a b base h1]
      simp [multiplyFuel, h1]
  | succ k ih =>
      intro a b base hb
      by_cases h : b ≤ 1
      · rw [multiply_of_le_one a b base h]
        simp [multiplyFuel, h]
      · rw [multiply_of_two_le a b base (by omega)]
        have : multiplyFuel (k + 1 + 1) a b base
            = multiplyFuel (k + 1) (add a base) (subtract b 1) base := by
          simp [multiplyFuel, h]
        rw [this]
        exact ih _ _ _ (by simp [subtract]; omega)

/-- Instrumented run on successor counts: the result agrees with
`multiply` and exactly `n` additions and `n` subtractions happen. -/
lemma multiplyCost_succ_nat :
    ∀ (n : Nat) (a base : Int),
      multiplyCost a ((n : Int) + 1) base = (multiply a ((n : Int) + 1) base, n, n) := by
  intro n
  induction n with
  | zero =>
      intro a base
      rw [multiplyCost, multiply]
      norm_num
  | succ k ih =>
      intro a base
      have h2 : ¬ ((k : Int) + 1 + 1 ≤ 1) := by omega
      have hsub : subtract ((k : Int) + 1 + 1) 1 = (k : Int) + 1 := by
        simp [subtract]
      push_cast
      rw [multiplyCost, if_neg h2, multiply_of_two_le a _ base (by omega), hsub]
      simp [ih]

/-- Every invocation in the call chain carries the same `base` as the
first invocation. -/
lemma callTrace_base_fixed :
    ∀ (n : Nat) (a b base : Int), b.toNat ≤ n →
      ∀ c ∈ callTrace a b base, c.2.2 = base := by
  intro n
  induction n with
  | zero =>
      intro a b base hb c hc
      have h1 : b ≤ 1 := by omega
      rw [callTrace, if_pos h1] at hc
      simp at hc
      rw [hc]
  | succ k ih =>
      intro a b base hb c hc
      by_cases h : b ≤ 1
      · rw [callTrace, if_pos h] at hc
        simp at hc
        rw [hc]
      · rw [callTrace, if_neg h] at hc
        rcases List.mem_cons.mp hc with hc0 | hcr
        · rw [hc0]
        · exact ih _ _ _ (by simp [subtract]; omega) c hcr

/-- C1: for all non-negative integers a and b, multiply(a, b) equals a * b
whenever b ≥ 1, and at b = 0 the implementation returns a, not 0. -/
theorem C1_product_with_zero_quirk (a b : Int) (ha : 0 ≤ a) (hb : 0 ≤ b) :
    (1 ≤ b → multiplyDefault a b = a * b) ∧ multiplyDefault a 0 = a := by
  refine ⟨fun h1 => multiplyDefault_closed a b h1, ?_⟩
  rw [multiplyDefault, multiply_of_le_one a 0 a (by norm_num)]

/-- Witness for C1 at a = 3, b = 4. -/
theorem C1_product_with_zero_quirk_witness :
    (1 ≤ (4 : Int) → multiplyDefault 3 4 = 3 * 4) ∧ multiplyDefault 3 0 = 3 :=
  C1_product_with_zero_quirk 3 4 (by norm_num) (by norm_num)

/-- C2 counterexample: the unconditional product contract fails at b = 0,
since multiply(5, 0) returns 5 while 5 * 0 = 0. -/
theorem C2_product_contract_counterexample :
    multiplyDefault 5 0 ≠ 5 * 0 := by
  rw [multiplyDefault, multiply_of_le_one 5 0 5 (by norm_num)]
  norm_num

/-- C2 amended: multiply(a, b) returns the product a * b for every integer
a and every integer b ≥ 1; at b = 0 the call returns a instead. -/
theorem C2_product_contract_amended (a b : Int) (hb : 1 ≤ b) :
    multiplyDefault a b = a * b :=
  multiplyDefault_closed a b hb

/-- Witness for the amended C2 at a = 7, b = 3. -/
theorem C2_product_contract_amended_witness :
    multiplyDefault 7 3 = 7 * 3 :=
  C2_product_contract_amended 7 3 (by norm_num)

/-- C3: for every integer a, base and b with b ≤ 1 (including b = 0,
b = 1 and negative b), multiply(a, b, base) returns a unchanged. -/
theorem C3_guard_returns_accumulator (a b base : Int) (hb : b ≤ 1) :
    multiply a b base = a :=
  multiply_of_le_one a b base hb

/-- Witness for C3 at a negative count: multiply(4, -5, 9) = 4. -/
theorem C3_guard_returns_accumulator_witness :
    multiply 4 (-5) 9 = 4 :=
  C3_guard_returns_accumulator 4 (-5) 9 (by norm_num)

/-- C4 counterexample: multiply(5, -3) terminates within a single call
frame (no recursive step at all) and returns 5, so a negative count does
not cause unbounded recursion. -/
theorem C4_negative_count_counterexample :
    multiplyFuel 1 5 (-3) 5 = some 5 ∧ multiplyDefault 5 (-3) = 5 := by
  refine ⟨by decide, ?_⟩
  rw [multiplyDefault, multiply_of_le_one 5 (-3) 5 (by norm_num)]

/-- C4 amended: for every integer a and every negative integer b,
multiply(a, b) terminates immediately — the guard b ≤ 1 also covers
negative b — returning a within one call frame. -/
theorem C4_negative_count_amended (a b : Int) (hb : b < 0) :
    multiplyDefault a b = a ∧ multiplyFuel 1 a b a = some a := by
  constructor
  · rw [multiplyDefault, multiply_of_le_one a b a (by omega)]
  · simp [multiplyFuel, show b ≤ 1 by omega]

/-- Witness for the amended C4 at a = 7, b = -2. -/
theorem C4_negative_count_amended_witness :
    multiplyDefault 7 (-2) = 7 ∧ multiplyFuel 1 7 (-2) 7 = some 7 :=
  C4_negative_count_amended 7 (-2) (by norm_num)

/-- C5: at every recursive step (b ≥ 2), the call equals the recursive
call whose accumulator is the old accumulator plus base and whose count
is exactly b - 1. -/
theorem C5_step_invariant (a b base : Int) (hb : 2 ≤ b) :
    multiply a b base = multiply (add a base) (subtract b 1) base ∧
    add a base = a + base ∧ subtract b 1 = b - 1 :=
  ⟨multiply_of_two_le a b base hb, rfl, rfl⟩

/-- Witness for C5 at a = 3, b = 5, base = 3. -/
theorem C5_step_invariant_witness :
    multiply 3 5 3 = multiply (add 3 3) (subtract 5 1) 3 ∧
    add 3 3 = 3 + 3 ∧ subtract 5 1 = 5 - 1 :=
  C5_step_invariant 3 5 3 (by norm_num)

/-- C6: for integer count b ≥ 1, the evaluation performs exactly b - 1
recursive steps, with exactly one addition and one subtraction per step
(so b - 1 calls to add and b - 1 calls to subtract in total), and the
instrumented run returns the same result as multiply. -/
theorem C6_step_and_operation_count (a b base : Int) (hb : 1 ≤ b) :
    (multiplyCost a b base).2.1 = (b - 1).toNat ∧
    (multiplyCost a b base).2.2 = (b - 1).toNat ∧
    (multiplyCost a b base).1 = multiply a b base := by
  obtain ⟨n, hn⟩ : ∃ n : Nat, b = (n : Int) + 1 := ⟨(b - 1).toNat, by omega⟩
  subst hn
  rw [multiplyCost_succ_nat]
  refine ⟨?_, ?_, rfl⟩ <;> simp

/-- Witness for C6 at a = 2, b = 4, base = 2. -/
theorem C6_step_and_operation_count_witness :
    (multiplyCost 2 4 2).2.1 = ((4 : Int) - 1).toNat ∧
    (multiplyCost 2 4 2).2.2 = ((4 : Int) - 1).toNat ∧
    (multiplyCost 2 4 2).1 = multiply 2 4 2 :=
  C6_step_and_operation_count 2 4 2 (by norm_num)

/-- C7: the two-argument call binds base to the initial value of a, and
every invocation in the recursive call chain carries the same base as the
first invocation. -/
theorem C7_default_base_and_constancy (a b : Int) :
    multiplyDefault a b = multiply a b a ∧
    ∀ c ∈ callTrace a b a, c.2.2 = a :=
  ⟨rfl, callTrace_base_fixed b.toNat a b a le_rfl⟩

/-- Witness for C7 at a = 2, b = 3. -/
theorem C7_default_base_and_constancy_witness :
    multiplyDefault 2 3 = multiply 2 3 2 ∧
    ∀ c ∈ callTrace 2 3 2, c.2.2 = 2 :=
  C7_default_base_and_constancy 2 3

/-- C8: the ten concrete fixture scenarios listed in the spec hold. -/
theorem C8_fixture_scenarios :
    multiplyDefault 2 2 = 4 ∧ multiplyDefault 4 2 = 8 ∧
    multiplyDefault 16 2 = 32 ∧ multiplyDefault 2 4 = 8 ∧
    multiplyDefault 4 4 = 16 ∧ multiplyDefault 16 4 = 64 ∧
    multiplyDefault 2 5 = 10 ∧ multiplyDefault 16 5 = 80 ∧
    multiplyDefault 2 10 = 20 ∧ multiplyDefault 16 10 = 160 := by
  refine ⟨?_, ?_, ?_, ?_, ?_, ?_, ?_, ?_, ?_, ?_⟩ <;>
    rw [multiplyDefault_closed _ _ (by norm_num)] <;> norm_num

/-- C9: multiply is deterministic — two calls with identical argument
triples return identical outputs.  The embedding is a pure function of
its arguments, mirroring the side-effect-free source. -/
theorem C9_determinism (a₁ b₁ c₁ a₂ b₂ c₂ : Int)
    (ha : a₁ = a₂) (hb : b₁ = b₂) (hc : c₁ = c₂) :
    multiply a₁ b₁ c₁ = multiply a₂ b₂ c₂ := by
  rw [ha, hb, hc]

/-- Witness for C9 at the triple (2, 3, 2) called twice. -/
theorem C9_determinism_witness :
    multiply 2 3 2 = multiply 2 3 2 :=
  C9_determinism 2 3 2 2 3 2 rfl rfl rfl

/-- C10: multiply terminates for every integer a, b and base: b.toNat + 1
call frames of fuel always suffice, and the fuel-indexed evaluation agrees
with the total (fuel-free) embedding. -/
theorem C10_termination_all_integers (a b base : Int) :
    multiplyFuel (b.toNat + 1) a b base = some (multiply a b base) :=
  multiplyFuel_complete b.toNat a b base le_rfl

end WebpackMath
